import Mathlib

/-!
Verification of the indicator/crossover core of `stock.py`, a stock price
analysis script.  The script downloads a close-price series, computes two
rolling moving averages (windows 20 and 50, `min_periods=1`) and daily
returns, and detects moving-average crossovers as sign flips of magnitude 2
in the sign of `MA_20 - MA_50`.  Prices are embedded as rational numbers,
a data frame as its relevant columns, timestamps as positions.
-/

/-- One price/indicator table: the `Close` column together with the indicator
columns that `compute_indicators` adds (`MA_20`, `MA_50`, `Daily_Return`).
A column the script has not yet filled is the empty list.  `Daily_Return`
entries are optional because `pct_change` leaves row 0 undefined (NaN). -/
structure DataFrame where
  Close : List ℚ
  MA_20 : List ℚ
  MA_50 : List ℚ
  Daily_Return : List (Option ℚ)
deriving DecidableEq

/-- Row `i` of `df['Close'].rolling(window=w, min_periods=1).mean()`: the
arithmetic mean of the up-to-`w` trailing closes `close[max 0 (i+1-w) .. i]`
(a shrinking window near the start, never fewer than one observation). -/
def rolling_mean (w : Nat) (close : List ℚ) : List ℚ :=
  (List.range close.length).map fun i =>
    let window := (close.take (i + 1)).drop (i + 1 - w)
    window.sum / (window.length : ℚ)

/-- Row `i` of `df['Close'].pct_change()`:
`(close[i] - close[i-1]) / close[i-1]`, undefined (`none`, NaN) at row 0. -/
def pct_change (close : List ℚ) : List (Option ℚ) :=
  (List.range close.length).map fun i =>
    if i = 0 then none
    else some ((close.getD i 0 - close.getD (i - 1) 0) / close.getD (i - 1) 0)

/-- `compute_indicators` of stock.py: copies the frame (`df = df.copy()`) and
adds the `MA_20`, `MA_50` and `Daily_Return` columns computed from `Close`. -/
def compute_indicators (df : DataFrame) : DataFrame :=
  { df with
    MA_20 := rolling_mean 20 df.Close
    MA_50 := rolling_mean 50 df.Close
    Daily_Return := pct_change df.Close }

/-- The sign lambda of `find_crossovers`:
`1 if x > 0 else (-1 if x < 0 else 0)`. -/
def signOf (x : ℚ) : Int := if 0 < x then 1 else if x < 0 then -1 else 0

/-- `diff = ma_short - ma_long` (series subtract elementwise, the two series
share the frame's index). -/
def maDiff (maShort maLong : List ℚ) : List ℚ :=
  (List.range maShort.length).map fun i => maShort.getD i 0 - maLong.getD i 0

/-- `sign = diff.apply(lambda x: 1 if x > 0 else (-1 if x < 0 else 0))`. -/
def signSeries (maShort maLong : List ℚ) : List Int :=
  (maDiff maShort maLong).map signOf

/-- `signal = sign.diff()`: `none` (NaN) at row 0, `sign[i] - sign[i-1]`
afterwards. -/
def signalSeries (sgn : List Int) : List (Option Int) :=
  (List.range sgn.length).map fun i =>
    if i = 0 then none else some (sgn.getD i 0 - sgn.getD (i - 1) 0)

/-- `df.index[signal == 2]` and `df.index[signal == -2]` computed from a sign
series (index positions in ascending order, as `df.index` stores them); a
NaN entry of `signal` compares unequal to both 2 and -2. -/
def crossoversOfSigns (sgn : List Int) : List Nat × List Nat :=
  ((List.range (signalSeries sgn).length).filter
      fun i => (signalSeries sgn).getD i none == some 2,
   (List.range (signalSeries sgn).length).filter
      fun i => (signalSeries sgn).getD i none == some (-2))

/-- `find_crossovers` of stock.py, reading the `MA_20`/`MA_50` columns:
returns the bullish (`signal == 2`) and bearish (`signal == -2`) indices. -/
def find_crossovers (maShort maLong : List ℚ) : List Nat × List Nat :=
  crossoversOfSigns (signSeries maShort maLong)

/-- The crossovers the run reports: `compute_indicators` on the downloaded
closes, then `find_crossovers` on the resulting MA columns (the composition
`main` performs via `plot_data`). -/
def pipeline_crossovers (close : List ℚ) : List Nat × List Nat :=
  let df := compute_indicators (DataFrame.mk close [] [] [])
  find_crossovers df.MA_20 df.MA_50

/-- `series.dropna()` as `print_summary` applies it to `Daily_Return`:
keeps exactly the defined entries, in order. -/
def dropna (l : List (Option ℚ)) : List ℚ := l.filterMap id

/- ### Basic index lemmas for the range/map encodings -/

theorem getD_range_map {α : Type} (f : Nat → α) {n i : Nat} (h : i < n) (d : α) :
    ((List.range n).map f).getD i d = f i := by
  rw [List.getD_eq_getElem?_getD, List.getElem?_map, List.getElem?_range h]
  rfl

theorem length_rolling_mean (w : Nat) (close : List ℚ) :
    (rolling_mean w close).length = close.length := by
  simp [rolling_mean]

theorem getD_rolling_mean (w : Nat) (close : List ℚ) {i : Nat} (h : i < close.length)
    (d : ℚ) :
    (rolling_mean w close).getD i d
      = ((close.take (i + 1)).drop (i + 1 - w)).sum
          / (((close.take (i + 1)).drop (i + 1 - w)).length : ℚ) :=
  getD_range_map _ h d

theorem length_pct_change (close : List ℚ) :
    (pct_change close).length = close.length := by
  simp [pct_change]

theorem length_maDiff (a b : List ℚ) : (maDiff a b).length = a.length := by
  simp [maDiff]

theorem length_signSeries (a b : List ℚ) : (signSeries a b).length = a.length := by
  simp [signSeries, maDiff]

theorem getD_signSeries (a b : List ℚ) {i : Nat} (h : i < a.length) (d : Int) :
    (signSeries a b).getD i d = signOf (a.getD i 0 - b.getD i 0) := by
  rw [signSeries, maDiff, List.map_map]
  exact getD_range_map _ h d

theorem length_signalSeries (s : List Int) :
    (signalSeries s).length = s.length := by
  simp [signalSeries]

theorem getD_signalSeries (s : List Int) {i : Nat} (h : i < s.length) :
    (signalSeries s).getD i none
      = if i = 0 then none else some (s.getD i 0 - s.getD (i - 1) 0) :=
  getD_range_map _ h none

theorem signOf_le_one (x : ℚ) : signOf x ≤ 1 := by
  unfold signOf; split_ifs <;> omega

theorem neg_one_le_signOf (x : ℚ) : -1 ≤ signOf x := by
  unfold signOf; split_ifs <;> omega

theorem signOf_nonneg {x : ℚ} (h : 0 ≤ x) : 0 ≤ signOf x := by
  unfold signOf
  split_ifs with h1 h2
  · omega
  · exact absurd h (not_le.mpr h2)
  · omega

theorem signOf_zero : signOf 0 = 0 := by simp [signOf]

/- ### Membership characterization of the detector's outputs -/

theorem mem_crossovers_bullish (s : List Int) (i : Nat) :
    i ∈ (crossoversOfSigns s).1
      ↔ 1 ≤ i ∧ i < s.length ∧ s.getD i 0 - s.getD (i - 1) 0 = 2 := by
  unfold crossoversOfSigns
  simp only [List.mem_filter, List.mem_range, length_signalSeries, beq_iff_eq]
  constructor
  · rintro ⟨hi, hp⟩
    rw [getD_signalSeries s hi] at hp
    by_cases h0 : i = 0
    · rw [if_pos h0] at hp; exact absurd hp (by simp)
    · rw [if_neg h0] at hp
      exact ⟨Nat.one_le_iff_ne_zero.mpr h0, hi, Option.some_inj.mp hp⟩
  · rintro ⟨h1, hi, hd⟩
    refine ⟨hi, ?_⟩
    rw [getD_signalSeries s hi, if_neg (by omega)]
    exact congrArg some hd

theorem mem_crossovers_bearish (s : List Int) (i : Nat) :
    i ∈ (crossoversOfSigns s).2
      ↔ 1 ≤ i ∧ i < s.length ∧ s.getD i 0 - s.getD (i - 1) 0 = -2 := by
  unfold crossoversOfSigns
  simp only [List.mem_filter, List.mem_range, length_signalSeries, beq_iff_eq]
  constructor
  · rintro ⟨hi, hp⟩
    rw [getD_signalSeries s hi] at hp
    by_cases h0 : i = 0
    · rw [if_pos h0] at hp; exact absurd hp (by simp)
    · rw [if_neg h0] at hp
      exact ⟨Nat.one_le_iff_ne_zero.mpr h0, hi, Option.some_inj.mp hp⟩
  · rintro ⟨h1, hi, hd⟩
    refine ⟨hi, ?_⟩
    rw [getD_signalSeries s hi, if_neg (by omega)]
    exact congrArg some hd

theorem mem_find_crossovers_bullish (a b : List ℚ) (i : Nat) :
    i ∈ (find_crossovers a b).1
      ↔ 1 ≤ i ∧ i < a.length ∧
        signOf (a.getD i 0 - b.getD i 0)
          - signOf (a.getD (i - 1) 0 - b.getD (i - 1) 0) = 2 := by
  rw [find_crossovers, mem_crossovers_bullish, length_signSeries]
  constructor
  · rintro ⟨h1, hi, hd⟩
    rw [getD_signSeries a b hi, getD_signSeries a b (by omega)] at hd
    exact ⟨h1, hi, hd⟩
  · rintro ⟨h1, hi, hd⟩
    refine ⟨h1, hi, ?_⟩
    rw [getD_signSeries a b hi, getD_signSeries a b (by omega)]
    exact hd

theorem mem_find_crossovers_bearish (a b : List ℚ) (i : Nat) :
    i ∈ (find_crossovers a b).2
      ↔ 1 ≤ i ∧ i < a.length ∧
        signOf (a.getD i 0 - b.getD i 0)
          - signOf (a.getD (i - 1) 0 - b.getD (i - 1) 0) = -2 := by
  rw [find_crossovers, mem_crossovers_bearish, length_signSeries]
  constructor
  · rintro ⟨h1, hi, hd⟩
    rw [getD_signSeries a b hi, getD_signSeries a b (by omega)] at hd
    exact ⟨h1, hi, hd⟩
  · rintro ⟨h1, hi, hd⟩
    refine ⟨h1, hi, ?_⟩
    rw [getD_signSeries a b hi, getD_signSeries a b (by omega)]
    exact hd

/- ### C8: the canonical sign pattern [-1, -1, +1, +1, -1] -/

/-- C8: for the sign sequence `[-1, -1, +1, +1, -1]` (diff negative,
negative, positive, positive, negative), the detector reports exactly one
bullish crossover, at index 2, and exactly one bearish crossover, at
index 4 — in particular none at index 0 or 1. -/
theorem find_crossovers_canonical_pattern :
    find_crossovers [-1, -1, 1, 1, -1] [0, 0, 0, 0, 0] = ([2], [4]) := by
  have hs : signSeries [-1, -1, 1, 1, -1] [0, 0, 0, 0, 0] = [-1, -1, 1, 1, -1] := by
    norm_num [signSeries, maDiff, signOf, List.range_succ]
  rw [find_crossovers, hs]
  decide

/- ### C1: the sign/delta rule characterizes the detector's output -/

/-- C1: for equal-length `ma_short`/`ma_long`, the detector reports a bullish
crossover exactly at the indices `i ≥ 1` where `sign[i] - sign[i-1] = 2` and
a bearish one exactly where it is `-2`, with `sign[i]` the sign of
`ma_short[i] - ma_long[i]`; index 0 is never reported. -/
theorem find_crossovers_sign_rule (maShort maLong : List ℚ)
    (hlen : maShort.length = maLong.length) :
    (∀ i, i ∈ (find_crossovers maShort maLong).1
        ↔ 1 ≤ i ∧ i < maShort.length ∧
          signOf (maShort.getD i 0 - maLong.getD i 0)
            - signOf (maShort.getD (i - 1) 0 - maLong.getD (i - 1) 0) = 2) ∧
    (∀ i, i ∈ (find_crossovers maShort maLong).2
        ↔ 1 ≤ i ∧ i < maShort.length ∧
          signOf (maShort.getD i 0 - maLong.getD i 0)
            - signOf (maShort.getD (i - 1) 0 - maLong.getD (i - 1) 0) = -2) ∧
    0 ∉ (find_crossovers maShort maLong).1 ∧
    0 ∉ (find_crossovers maShort maLong).2 := by
  refine ⟨fun i => mem_find_crossovers_bullish maShort maLong i,
          fun i => mem_find_crossovers_bearish maShort maLong i, ?_, ?_⟩
  · intro h0
    have hh := (mem_find_crossovers_bullish maShort maLong 0).mp h0
    exact absurd hh.1 (by norm_num)
  · intro h0
    have hh := (mem_find_crossovers_bearish maShort maLong 0).mp h0
    exact absurd hh.1 (by norm_num)

/-- Witness for C1 at the concrete pair ([1,0,2], [0,1,0]). -/
theorem find_crossovers_sign_rule_witness :
    ([1, 0, 2] : List ℚ).length = ([0, 1, 0] : List ℚ).length ∧
    ((∀ i, i ∈ (find_crossovers [1, 0, 2] [0, 1, 0]).1
        ↔ 1 ≤ i ∧ i < ([1, 0, 2] : List ℚ).length ∧
          signOf (([1, 0, 2] : List ℚ).getD i 0 - ([0, 1, 0] : List ℚ).getD i 0)
            - signOf (([1, 0, 2] : List ℚ).getD (i - 1) 0
                - ([0, 1, 0] : List ℚ).getD (i - 1) 0) = 2) ∧
    (∀ i, i ∈ (find_crossovers [1, 0, 2] [0, 1, 0]).2
        ↔ 1 ≤ i ∧ i < ([1, 0, 2] : List ℚ).length ∧
          signOf (([1, 0, 2] : List ℚ).getD i 0 - ([0, 1, 0] : List ℚ).getD i 0)
            - signOf (([1, 0, 2] : List ℚ).getD (i - 1) 0
                - ([0, 1, 0] : List ℚ).getD (i - 1) 0) = -2) ∧
    0 ∉ (find_crossovers [1, 0, 2] [0, 1, 0]).1 ∧
    0 ∉ (find_crossovers [1, 0, 2] [0, 1, 0]).2) :=
  ⟨rfl, find_crossovers_sign_rule [1, 0, 2] [0, 1, 0] rfl⟩

/- ### C3: a sign sequence that steps through zero produces no crossover -/

/-- C3: whenever consecutive signs of `ma_short - ma_long` never jump by more
than 1 in absolute value (as when the difference passes through exact
equality one step at a time, e.g. signs -1, 0, +1), the detector reports no
crossover at all: a tie (`diff[i] = 0`, sign 0) never by itself registers. -/
theorem find_crossovers_no_step_through_zero (maShort maLong : List ℚ)
    (hstep : ∀ i, i < maShort.length → 1 ≤ i →
      ((signSeries maShort maLong).getD i 0
        - (signSeries maShort maLong).getD (i - 1) 0).natAbs ≤ 1) :
    find_crossovers maShort maLong = ([], []) := by
  have h1 : (find_crossovers maShort maLong).1 = [] := by
    rw [List.eq_nil_iff_forall_not_mem]
    intro i hi
    rw [find_crossovers, mem_crossovers_bullish, length_signSeries] at hi
    have hh := hstep i hi.2.1 hi.1
    rw [hi.2.2] at hh
    norm_num at hh
  have h2 : (find_crossovers maShort maLong).2 = [] := by
    rw [List.eq_nil_iff_forall_not_mem]
    intro i hi
    rw [find_crossovers, mem_crossovers_bearish, length_signSeries] at hi
    have hh := hstep i hi.2.1 hi.1
    rw [hi.2.2] at hh
    norm_num at hh
  exact Prod.ext_iff.mpr ⟨h1, h2⟩

/-- Witness for C3 at the diff sequence [-1, 0, 1] (signs -1, 0, +1). -/
theorem find_crossovers_no_step_through_zero_witness :
    (∀ i, i < ([-1, 0, 1] : List ℚ).length → 1 ≤ i →
      ((signSeries [-1, 0, 1] [0, 0, 0]).getD i 0
        - (signSeries [-1, 0, 1] [0, 0, 0]).getD (i - 1) 0).natAbs ≤ 1) ∧
    find_crossovers [-1, 0, 1] [0, 0, 0] = ([], []) := by
  have hs : signSeries [-1, 0, 1] [0, 0, 0] = [-1, 0, 1] := by
    norm_num [signSeries, maDiff, signOf, List.range_succ]
  have hstep : ∀ i, i < ([-1, 0, 1] : List ℚ).length → 1 ≤ i →
      ((signSeries [-1, 0, 1] [0, 0, 0]).getD i 0
        - (signSeries [-1, 0, 1] [0, 0, 0]).getD (i - 1) 0).natAbs ≤ 1 := by
    intro i hi h1
    rw [hs]
    have hi3 : i < 3 := by simpa using hi
    interval_cases i <;> decide
  exact ⟨hstep, find_crossovers_no_step_through_zero [-1, 0, 1] [0, 0, 0] hstep⟩

/- ### C6: output ordering, no duplicates, no overlap -/

/-- C6: on every input the two returned index sequences are strictly
ascending (hence chronological and duplicate-free) and no index appears in
both the bullish and the bearish sequence. -/
theorem find_crossovers_ordered_disjoint (maShort maLong : List ℚ) :
    (find_crossovers maShort maLong).1.Pairwise (· < ·) ∧
    (find_crossovers maShort maLong).2.Pairwise (· < ·) ∧
    (find_crossovers maShort maLong).1.Nodup ∧
    (find_crossovers maShort maLong).2.Nodup ∧
    ∀ i, i ∈ (find_crossovers maShort maLong).1
      → i ∉ (find_crossovers maShort maLong).2 := by
  have hp1 : (find_crossovers maShort maLong).1.Pairwise (· < ·) :=
    List.Pairwise.sublist (List.filter_sublist _) (List.pairwise_lt_range _)
  have hp2 : (find_crossovers maShort maLong).2.Pairwise (· < ·) :=
    List.Pairwise.sublist (List.filter_sublist _) (List.pairwise_lt_range _)
  refine ⟨hp1, hp2, hp1.imp fun hlt => ne_of_lt hlt, hp2.imp fun hlt => ne_of_lt hlt, ?_⟩
  intro i h1 h2
  rw [find_crossovers, mem_crossovers_bullish] at h1
  rw [find_crossovers, mem_crossovers_bearish] at h2
  omega

/- ### Window-shape lemmas for the rolling mean -/

theorem rolling_mean_first (w : Nat) (c : ℚ) (t : List ℚ) (hw : 1 ≤ w) :
    (rolling_mean w (c :: t)).getD 0 0 = c := by
  rw [getD_rolling_mean w (c :: t) (by simp) 0]
  have e : 0 + 1 - w = 0 := by omega
  rw [e, List.drop_zero]
  norm_num

theorem rolling_mean_small (w : Nat) (close : List ℚ) {i : Nat}
    (hi : i < close.length) (hw : i < w) :
    (rolling_mean w close).getD i 0
      = (close.take (i + 1)).sum / ((i + 1 : ℕ) : ℚ) := by
  rw [getD_rolling_mean w close hi 0, show i + 1 - w = 0 by omega, List.drop_zero]
  have e : (close.take (i + 1)).length = i + 1 := by
    rw [List.length_take]; omega
  rw [e]

theorem rolling_mean_full (w : Nat) (close : List ℚ) {i : Nat}
    (hi : i < close.length) (hw : w ≤ i) :
    (rolling_mean w close).getD i 0
      = ((close.drop (i + 1 - w)).take w).sum / (w : ℚ) := by
  rw [getD_rolling_mean w close hi 0, List.drop_take]
  have e1 : i + 1 - (i + 1 - w) = w := by omega
  rw [e1]
  have e2 : ((close.drop (i + 1 - w)).take w).length = w := by
    rw [List.length_take, List.length_drop]; omega
  rw [e2]

/- ### C2: lengths and the shrinking/trailing window rule -/

/-- C2: on a close series of length N ≥ 1 the indicator engine produces
MA_20, MA_50 and Daily_Return columns of length N; below the window size the
moving average is the mean of the whole prefix (shrinking window, minimum
one observation), from the window size onwards it is the mean of exactly the
trailing 20 (respectively 50) closes. -/
theorem compute_indicators_lengths_and_windows (close : List ℚ)
    (h : 1 ≤ close.length) :
    (compute_indicators (DataFrame.mk close [] [] [])).MA_20.length = close.length ∧
    (compute_indicators (DataFrame.mk close [] [] [])).MA_50.length = close.length ∧
    (compute_indicators (DataFrame.mk close [] [] [])).Daily_Return.length = close.length ∧
    (∀ i, i < close.length → i < 20 →
      (compute_indicators (DataFrame.mk close [] [] [])).MA_20.getD i 0
        = (close.take (i + 1)).sum / ((i + 1 : ℕ) : ℚ)) ∧
    (∀ i, i < close.length → 20 ≤ i →
      (compute_indicators (DataFrame.mk close [] [] [])).MA_20.getD i 0
        = ((close.drop (i - 19)).take 20).sum / (20 : ℚ)) ∧
    (∀ i, i < close.length → i < 50 →
      (compute_indicators (DataFrame.mk close [] [] [])).MA_50.getD i 0
        = (close.take (i + 1)).sum / ((i + 1 : ℕ) : ℚ)) ∧
    (∀ i, i < close.length → 50 ≤ i →
      (compute_indicators (DataFrame.mk close [] [] [])).MA_50.getD i 0
        = ((close.drop (i - 49)).take 50).sum / (50 : ℚ)) := by
  have h20 : (compute_indicators (DataFrame.mk close [] [] [])).MA_20
      = rolling_mean 20 close := rfl
  have h50 : (compute_indicators (DataFrame.mk close [] [] [])).MA_50
      = rolling_mean 50 close := rfl
  have hDR : (compute_indicators (DataFrame.mk close [] [] [])).Daily_Return
      = pct_change close := rfl
  refine ⟨by rw [h20, length_rolling_mean], by rw [h50, length_rolling_mean],
          by rw [hDR, length_pct_change], ?_, ?_, ?_, ?_⟩
  · intro i hi hw
    rw [h20, rolling_mean_small 20 close hi hw]
  · intro i hi hw
    rw [h20, rolling_mean_full 20 close hi hw, show i + 1 - 20 = i - 19 by omega]
    norm_num
  · intro i hi hw
    rw [h50, rolling_mean_small 50 close hi hw]
  · intro i hi hw
    rw [h50, rolling_mean_full 50 close hi hw, show i + 1 - 50 = i - 49 by omega]
    norm_num

/-- Witness for C2 at the two-point series [1, 2]. -/
theorem compute_indicators_lengths_and_windows_witness :
    1 ≤ ([1, 2] : List ℚ).length ∧
    ((compute_indicators (DataFrame.mk [1, 2] [] [] [])).MA_20.length
        = ([1, 2] : List ℚ).length ∧
    (compute_indicators (DataFrame.mk [1, 2] [] [] [])).MA_50.length
        = ([1, 2] : List ℚ).length ∧
    (compute_indicators (DataFrame.mk [1, 2] [] [] [])).Daily_Return.length
        = ([1, 2] : List ℚ).length ∧
    (∀ i, i < ([1, 2] : List ℚ).length → i < 20 →
      (compute_indicators (DataFrame.mk [1, 2] [] [] [])).MA_20.getD i 0
        = (([1, 2] : List ℚ).take (i + 1)).sum / ((i + 1 : ℕ) : ℚ)) ∧
    (∀ i, i < ([1, 2] : List ℚ).length → 20 ≤ i →
      (compute_indicators (DataFrame.mk [1, 2] [] [] [])).MA_20.getD i 0
        = ((([1, 2] : List ℚ).drop (i - 19)).take 20).sum / (20 : ℚ)) ∧
    (∀ i, i < ([1, 2] : List ℚ).length → i < 50 →
      (compute_indicators (DataFrame.mk [1, 2] [] [] [])).MA_50.getD i 0
        = (([1, 2] : List ℚ).take (i + 1)).sum / ((i + 1 : ℕ) : ℚ)) ∧
    (∀ i, i < ([1, 2] : List ℚ).length → 50 ≤ i →
      (compute_indicators (DataFrame.mk [1, 2] [] [] [])).MA_50.getD i 0
        = ((([1, 2] : List ℚ).drop (i - 49)).take 50).sum / (50 : ℚ))) :=
  ⟨by decide, compute_indicators_lengths_and_windows [1, 2] (by decide)⟩

/- ### C10: the first index never crosses, nor can index 1 -/

/-- C10 (implicit): both moving averages start at the first close
(`ma_short[0] = ma_long[0] = close[0]`), so the first sign is 0; hence no
crossover can be reported at index 0 or 1 and every reported index is ≥ 2. -/
theorem pipeline_earliest_crossover (close : List ℚ) (h : 1 ≤ close.length) :
    (compute_indicators (DataFrame.mk close [] [] [])).MA_20.getD 0 0 = close.getD 0 0 ∧
    (compute_indicators (DataFrame.mk close [] [] [])).MA_50.getD 0 0 = close.getD 0 0 ∧
    signOf ((compute_indicators (DataFrame.mk close [] [] [])).MA_20.getD 0 0
      - (compute_indicators (DataFrame.mk close [] [] [])).MA_50.getD 0 0) = 0 ∧
    (∀ i, i ∈ (pipeline_crossovers close).1 → 2 ≤ i) ∧
    (∀ i, i ∈ (pipeline_crossovers close).2 → 2 ≤ i) := by
  have hne : close ≠ [] := by
    intro hnil
    rw [hnil] at h
    exact absurd h (by norm_num)
  obtain ⟨c, t, rfl⟩ := List.exists_cons_of_ne_nil hne
  have h20 : (compute_indicators (DataFrame.mk (c :: t) [] [] [])).MA_20
      = rolling_mean 20 (c :: t) := rfl
  have h50 : (compute_indicators (DataFrame.mk (c :: t) [] [] [])).MA_50
      = rolling_mean 50 (c :: t) := rfl
  have e20 : (rolling_mean 20 (c :: t)).getD 0 0 = c := rolling_mean_first 20 c t (by norm_num)
  have e50 : (rolling_mean 50 (c :: t)).getD 0 0 = c := rolling_mean_first 50 c t (by norm_num)
  have hpc : pipeline_crossovers (c :: t)
      = find_crossovers (rolling_mean 20 (c :: t)) (rolling_mean 50 (c :: t)) := rfl
  have hbull : ∀ i, i ∈ (pipeline_crossovers (c :: t)).1 → 2 ≤ i := by
    intro i hi
    rw [hpc, mem_find_crossovers_bullish] at hi
    obtain ⟨h1, hlt, hd⟩ := hi
    by_contra hcon
    have hi1 : i = 1 := by omega
    subst hi1
    rw [length_rolling_mean] at hlt
    simp only [Nat.sub_self] at hd
    rw [e20, e50, sub_self, signOf_zero] at hd
    have hle := signOf_le_one
      ((rolling_mean 20 (c :: t)).getD 1 0 - (rolling_mean 50 (c :: t)).getD 1 0)
    omega
  have hbear : ∀ i, i ∈ (pipeline_crossovers (c :: t)).2 → 2 ≤ i := by
    intro i hi
    rw [hpc, mem_find_crossovers_bearish] at hi
    obtain ⟨h1, hlt, hd⟩ := hi
    by_contra hcon
    have hi1 : i = 1 := by omega
    subst hi1
    rw [length_rolling_mean] at hlt
    simp only [Nat.sub_self] at hd
    rw [e20, e50, sub_self, signOf_zero] at hd
    have hge := neg_one_le_signOf
      ((rolling_mean 20 (c :: t)).getD 1 0 - (rolling_mean 50 (c :: t)).getD 1 0)
    omega
  refine ⟨by rw [h20, e20]; rfl, by rw [h50, e50]; rfl, ?_, hbull, hbear⟩
  rw [h20, h50, e20, e50, sub_self, signOf_zero]

/-- Witness for C10 at the series [1, 2]. -/
theorem pipeline_earliest_crossover_witness :
    1 ≤ ([1, 2] : List ℚ).length ∧
    ((compute_indicators (DataFrame.mk [1, 2] [] [] [])).MA_20.getD 0 0
        = ([1, 2] : List ℚ).getD 0 0 ∧
    (compute_indicators (DataFrame.mk [1, 2] [] [] [])).MA_50.getD 0 0
        = ([1, 2] : List ℚ).getD 0 0 ∧
    signOf ((compute_indicators (DataFrame.mk [1, 2] [] [] [])).MA_20.getD 0 0
      - (compute_indicators (DataFrame.mk [1, 2] [] [] [])).MA_50.getD 0 0) = 0 ∧
    (∀ i, i ∈ (pipeline_crossovers [1, 2]).1 → 2 ≤ i) ∧
    (∀ i, i ∈ (pipeline_crossovers [1, 2]).2 → 2 ≤ i)) :=
  ⟨by decide, pipeline_earliest_crossover [1, 2] (by decide)⟩

/- ### C5: daily returns -/

theorem filterMap_id_map_some {α β : Type} (g : α → β) (l : List α) :
    (l.map fun x => some (g x)).filterMap id = l.map g := by
  induction l with
  | nil => rfl
  | cons a t ih => simp [ih]

theorem dropna_pct_change (close : List ℚ) :
    dropna (pct_change close)
      = (List.range (close.length - 1)).map
          (fun j => (close.getD (j + 1) 0 - close.getD j 0) / close.getD j 0) := by
  cases close with
  | nil => rfl
  | cons c t =>
    have e : (c :: t).length - 1 = t.length := rfl
    rw [e, pct_change, show (c :: t).length = t.length + 1 from rfl,
       List.range_succ_eq_map, List.map_cons, List.map_map, dropna,
       List.filterMap_cons_none (by rfl)]
    have hfun : ((fun i => if i = 0 then none
          else some (((c :: t).getD i 0 - (c :: t).getD (i - 1) 0)
            / (c :: t).getD (i - 1) 0)) ∘ Nat.succ)
        = fun j => some (((c :: t).getD (j + 1) 0 - (c :: t).getD j 0)
            / (c :: t).getD j 0) := by
      funext j
      simp only [Function.comp_apply]
      rw [if_neg (Nat.succ_ne_zero j)]
      simp only [Nat.succ_sub_one]
    rw [hfun, filterMap_id_map_some]

/-- C5: on a close series of length N ≥ 1, the first daily return is
undefined (none), every later one equals
`(close[i] - close[i-1]) / close[i-1]` — equivalently `close[i]/close[i-1] - 1`
when the prior close is nonzero — and dropping the undefined entries (as the
summary does before any return statistic) keeps exactly the returns at
indices 1 .. N-1 in order. -/
theorem daily_return_values (close : List ℚ) (h : 1 ≤ close.length) :
    (compute_indicators (DataFrame.mk close [] [] [])).Daily_Return.getD 0 (some 0) = none ∧
    (∀ i, i < close.length → 1 ≤ i →
      (compute_indicators (DataFrame.mk close [] [] [])).Daily_Return.getD i none
        = some ((close.getD i 0 - close.getD (i - 1) 0) / close.getD (i - 1) 0)) ∧
    (∀ i, i < close.length → 1 ≤ i → close.getD (i - 1) 0 ≠ 0 →
      (compute_indicators (DataFrame.mk close [] [] [])).Daily_Return.getD i none
        = some (close.getD i 0 / close.getD (i - 1) 0 - 1)) ∧
    dropna (compute_indicators (DataFrame.mk close [] [] [])).Daily_Return
      = (List.range (close.length - 1)).map
          (fun j => (close.getD (j + 1) 0 - close.getD j 0) / close.getD j 0) := by
  have hDR : (compute_indicators (DataFrame.mk close [] [] [])).Daily_Return
      = pct_change close := rfl
  refine ⟨?_, ?_, ?_, ?_⟩
  · rw [hDR, pct_change, getD_range_map _ (by omega) (some 0)]
    simp
  · intro i hi h1
    rw [hDR, pct_change, getD_range_map _ hi none, if_neg (by omega)]
  · intro i hi h1 hz
    rw [hDR, pct_change, getD_range_map _ hi none, if_neg (by omega)]
    rw [sub_div, div_self hz]
  · rw [hDR, dropna_pct_change]

/-- Witness for C5 at the series [1, 2]. -/
theorem daily_return_values_witness :
    1 ≤ ([1, 2] : List ℚ).length ∧
    ((compute_indicators (DataFrame.mk [1, 2] [] [] [])).Daily_Return.getD 0 (some 0) = none ∧
    (∀ i, i < ([1, 2] : List ℚ).length → 1 ≤ i →
      (compute_indicators (DataFrame.mk [1, 2] [] [] [])).Daily_Return.getD i none
        = some ((([1, 2] : List ℚ).getD i 0 - ([1, 2] : List ℚ).getD (i - 1) 0)
            / ([1, 2] : List ℚ).getD (i - 1) 0)) ∧
    (∀ i, i < ([1, 2] : List ℚ).length → 1 ≤ i → ([1, 2] : List ℚ).getD (i - 1) 0 ≠ 0 →
      (compute_indicators (DataFrame.mk [1, 2] [] [] [])).Daily_Return.getD i none
        = some (([1, 2] : List ℚ).getD i 0 / ([1, 2] : List ℚ).getD (i - 1) 0 - 1)) ∧
    dropna (compute_indicators (DataFrame.mk [1, 2] [] [] [])).Daily_Return
      = (List.range (([1, 2] : List ℚ).length - 1)).map
          (fun j => (([1, 2] : List ℚ).getD (j + 1) 0 - ([1, 2] : List ℚ).getD j 0)
            / ([1, 2] : List ℚ).getD j 0)) :=
  ⟨by decide, daily_return_values [1, 2] (by decide)⟩

/- ### C7: compute_indicators never mutates its input frame -/

/-- The empty frame (used as a lookup default only). -/
def emptyDF : DataFrame := DataFrame.mk [] [] [] []

/-- A heap of frames: each reference (index) holds one frame, mirroring which
pandas object a variable points at. -/
abbrev Heap := List DataFrame

/-- `df.copy()`: duplicates the frame's value. -/
def DataFrame.copy (df : DataFrame) : DataFrame := df

/-- `compute_indicators` at the level of frame references: `df = df.copy()`
allocates a fresh frame at the end of the heap, each of the three column
assignments mutates only that fresh frame (reading `Close` from it), and the
fresh frame's reference is returned; the caller's frame at `r` is never
written. -/
def compute_indicators_ref (h : Heap) (r : Nat) : Heap × Nat :=
  let df0 := (h.getD r emptyDF).copy
  let nr := h.length
  let df1 := { df0 with MA_20 := rolling_mean 20 df0.Close }
  let df2 := { df1 with MA_50 := rolling_mean 50 df1.Close }
  let df3 := { df2 with Daily_Return := pct_change df2.Close }
  ((((h ++ [df0]).set nr df1).set nr df2).set nr df3, nr)

theorem getD_set_self {α : Type} (l : List α) {i : Nat} (h : i < l.length) (a d : α) :
    (l.set i a).getD i d = a := by
  rw [List.getD_eq_getElem?_getD]
  simp [List.getElem?_set_self, h]

theorem getD_set_ne {α : Type} (l : List α) {i j : Nat} (h : i ≠ j) (a d : α) :
    (l.set i a).getD j d = l.getD j d := by
  rw [List.getD_eq_getElem?_getD, List.getElem?_set_ne h, ← List.getD_eq_getElem?_getD]

theorem getD_append_left {α : Type} (l l2 : List α) {i : Nat} (h : i < l.length) (d : α) :
    (l ++ l2).getD i d = l.getD i d := by
  rw [List.getD_eq_getElem?_getD, List.getElem?_append, if_pos h,
     ← List.getD_eq_getElem?_getD]

/-- C7: `compute_indicators` leaves the input frame unchanged — after the
call the heap still holds the same frame at the input reference — and its
result is a newly allocated frame (a fresh reference, distinct from the
input's) holding exactly the functional `compute_indicators` of the input. -/
theorem compute_indicators_ref_no_mutation (h : Heap) (r : Nat) (hr : r < h.length) :
    (compute_indicators_ref h r).1.getD r emptyDF = h.getD r emptyDF ∧
    (compute_indicators_ref h r).2 = h.length ∧
    (compute_indicators_ref h r).2 ≠ r ∧
    (compute_indicators_ref h r).1.getD (compute_indicators_ref h r).2 emptyDF
      = compute_indicators (h.getD r emptyDF) := by
  refine ⟨?_, rfl, by simp only [compute_indicators_ref]; omega, ?_⟩
  · simp only [compute_indicators_ref]
    rw [getD_set_ne, getD_set_ne, getD_set_ne, getD_append_left] <;> omega
  · simp only [compute_indicators_ref]
    rw [getD_set_self]
    · rfl
    · simp

/-- Witness for C7 on a one-frame heap holding the series [1, 2]. -/
theorem compute_indicators_ref_no_mutation_witness :
    0 < ([DataFrame.mk [1, 2] [] [] []] : Heap).length ∧
    ((compute_indicators_ref [DataFrame.mk [1, 2] [] [] []] 0).1.getD 0 emptyDF
        = ([DataFrame.mk [1, 2] [] [] []] : Heap).getD 0 emptyDF ∧
    (compute_indicators_ref [DataFrame.mk [1, 2] [] [] []] 0).2
        = ([DataFrame.mk [1, 2] [] [] []] : Heap).length ∧
    (compute_indicators_ref [DataFrame.mk [1, 2] [] [] []] 0).2 ≠ 0 ∧
    (compute_indicators_ref [DataFrame.mk [1, 2] [] [] []] 0).1.getD
        (compute_indicators_ref [DataFrame.mk [1, 2] [] [] []] 0).2 emptyDF
      = compute_indicators (([DataFrame.mk [1, 2] [] [] []] : Heap).getD 0 emptyDF)) :=
  ⟨by decide, compute_indicators_ref_no_mutation [DataFrame.mk [1, 2] [] [] []] 0 (by decide)⟩


/- ### C4: behaviour of main on a failed download -/

/-- The apostrophe character that the error message puts around the ticker
and the period. -/
def apos : String := String.singleton (Char.ofNat 39)

/-- What the data provider (yfinance) does on one call: either the fetch
raises, or it returns a frame with the given closes (possibly empty). -/
inductive FetchOutcome where
  | raises (msg : String)
  | frame (close : List ℚ)
deriving DecidableEq

/-- `download_data` of stock.py given the provider's behaviour: a raised
fetch error is wrapped as "Failed to download data for TICKER: cause"; an
empty frame is rejected with a "No data found for ticker ..." message naming
the ticker and the period; otherwise the frame is returned. -/
def download_data (ticker period : String) (provider : FetchOutcome) :
    Except String (List ℚ) :=
  match provider with
  | .raises e => .error ("Failed to download data for " ++ (ticker ++ (": " ++ e)))
  | .frame close =>
    if close.isEmpty then
      .error ("No data found for ticker "
        ++ (apos ++ (ticker ++ (apos ++ (" with period="
        ++ (apos ++ (period ++ (apos ++ "."))))))))
    else .ok close

/-- Observable outcome of one run of the script: the process exit status, the
lines printed to stdout (the data stream) and to stderr (the diagnostic
stream). -/
structure RunOutcome where
  exitCode : Nat
  outLines : List String
  errLines : List String
deriving DecidableEq

/-- `main` of stock.py around the data acquisition: a download failure is
caught, reported as "Error: ..." with plain `print` — hence on stdout, never
on stderr — and the process exits with status 1; on success the run goes on
to report and plot (summary and chart text are not modelled; no claim
concerns them) and exits with status 0. -/
def main_run (ticker period : String) (provider : FetchOutcome) : RunOutcome :=
  match download_data ticker period provider with
  | .error e => RunOutcome.mk 1 ["Error: " ++ e] []
  | .ok _ => RunOutcome.mk 0 [] []

/-- C4 counterexample: for ticker ZZZZ and an empty provider frame the run
exits with status 1 but the diagnostic stream stays empty — the error line
(which does contain the ticker) goes to stdout, the data stream, so the
claim's "written to the diagnostic stream (not the data stream)" fails on
the code. -/
theorem main_empty_frame_stderr_empty :
    (main_run "ZZZZ" "1y" (FetchOutcome.frame [])).exitCode = 1 ∧
    (main_run "ZZZZ" "1y" (FetchOutcome.frame [])).errLines = [] ∧
    (main_run "ZZZZ" "1y" (FetchOutcome.frame [])).outLines ≠ [] := by
  refine ⟨rfl, rfl, ?_⟩
  decide

/-- C4 amended: on an empty provider frame, and likewise when the fetch
raises, the run exits with status 1 and prints one user-facing error line
containing the ticker symbol to the standard output stream (the data
stream), the diagnostic stream staying empty. -/
theorem main_failure_exit_contract (ticker period emsg : String) :
    ((main_run ticker period (FetchOutcome.frame [])).exitCode = 1 ∧
     (main_run ticker period (FetchOutcome.frame [])).errLines = [] ∧
     ∃ pre post, (main_run ticker period (FetchOutcome.frame [])).outLines
        = [pre ++ (ticker ++ post)]) ∧
    ((main_run ticker period (FetchOutcome.raises emsg)).exitCode = 1 ∧
     (main_run ticker period (FetchOutcome.raises emsg)).errLines = [] ∧
     ∃ pre post, (main_run ticker period (FetchOutcome.raises emsg)).outLines
        = [pre ++ (ticker ++ post)]) := by
  constructor
  · refine ⟨rfl, rfl, "Error: " ++ ("No data found for ticker " ++ apos),
      apos ++ (" with period=" ++ (apos ++ (period ++ (apos ++ ".")))), ?_⟩
    show ["Error: " ++ ("No data found for ticker "
        ++ (apos ++ (ticker ++ (apos ++ (" with period="
        ++ (apos ++ (period ++ (apos ++ "."))))))))]
      = _
    simp only [String.append_assoc]
  · refine ⟨rfl, rfl, "Error: " ++ "Failed to download data for ", ": " ++ emsg, ?_⟩
    show ["Error: " ++ ("Failed to download data for " ++ (ticker ++ (": " ++ emsg)))] = _
    simp only [String.append_assoc]

/- ### C9: the 60-point monotone series -/

/-- Natural-number version of the 60-point test series, close[i] = 100 + i
(generated for any length n); kept in ℕ so the kernel can compute with it. -/
def closeLinNat (n : Nat) : List ℕ := (List.range n).map fun i => 100 + i

/-- The test series close[i] = 100 + i as the rational-valued close series
the pipeline consumes. -/
def closeLin (n : Nat) : List ℚ := (closeLinNat n).map (Nat.cast : ℕ → ℚ)

/-- The trailing window that `rolling_mean w` averages at row i, over a
ℕ-valued series. -/
def windowNat (w : Nat) (l : List ℕ) (i : Nat) : List ℕ :=
  (l.take (i + 1)).drop (i + 1 - w)

theorem getD_closeLin {n i : Nat} (h : i < n) :
    (closeLin n).getD i 0 = (100 : ℚ) + i := by
  rw [closeLin, closeLinNat, List.map_map, getD_range_map _ h 0]
  simp only [Function.comp_apply]
  push_cast
  ring

theorem getD_rolling_mean_cast (w : Nat) (l : List ℕ) {i : Nat} (h : i < l.length) :
    (rolling_mean w (l.map (Nat.cast : ℕ → ℚ))).getD i 0
      = ((windowNat w l i).sum : ℚ) / ((windowNat w l i).length : ℚ) := by
  rw [getD_rolling_mean w _ (by simpa using h) 0, ← List.map_take, ← List.map_drop,
     ← Nat.cast_list_sum, List.length_map]
  rfl

theorem closeLin_window_facts : ∀ i, i < 60 →
    0 < (windowNat 20 (closeLinNat 60) i).length ∧
    0 < (windowNat 50 (closeLinNat 60) i).length ∧
    (windowNat 20 (closeLinNat 60) i).sum
      ≤ (100 + i) * (windowNat 20 (closeLinNat 60) i).length ∧
    (windowNat 50 (closeLinNat 60) i).sum * (windowNat 20 (closeLinNat 60) i).length
      ≤ (windowNat 20 (closeLinNat 60) i).sum * (windowNat 50 (closeLinNat 60) i).length := by
  decide

/-- C9: for the 60-point strictly increasing close series close[i] = 100 + i,
the short moving average never exceeds the close at any index, and the
detector reports zero bearish crossovers on the resulting MA_20/MA_50
pair. -/
theorem monotone_series_short_ma_le_close_and_no_bearish :
    (∀ i, i < 60 →
      (compute_indicators (DataFrame.mk (closeLin 60) [] [] [])).MA_20.getD i 0
        ≤ (closeLin 60).getD i 0) ∧
    (pipeline_crossovers (closeLin 60)).2 = [] := by
  have hlen : (closeLin 60).length = 60 := by simp [closeLin, closeLinNat]
  have hlenN : (closeLinNat 60).length = 60 := by simp [closeLinNat]
  have h20 : (compute_indicators (DataFrame.mk (closeLin 60) [] [] [])).MA_20
      = rolling_mean 20 (closeLin 60) := rfl
  have key : ∀ k, k < 60 →
      (rolling_mean 50 (closeLin 60)).getD k 0
        ≤ (rolling_mean 20 (closeLin 60)).getD k 0 := by
    intro k hk
    have hk' : k < (closeLinNat 60).length := by rw [hlenN]; exact hk
    rw [closeLin, getD_rolling_mean_cast 50 _ hk', getD_rolling_mean_cast 20 _ hk']
    obtain ⟨hp20, hp50, hle, hmul⟩ := closeLin_window_facts k hk
    rw [div_le_div_iff₀ (by exact_mod_cast hp50) (by exact_mod_cast hp20)]
    exact_mod_cast hmul
  constructor
  · intro i hi
    have hRHS : (closeLin 60).getD i 0 = (100 : ℚ) + i := getD_closeLin hi
    have hi' : i < (closeLinNat 60).length := by rw [hlenN]; exact hi
    rw [h20, hRHS, closeLin, getD_rolling_mean_cast 20 _ hi']
    obtain ⟨hp20, hp50, hle, hmul⟩ := closeLin_window_facts i hi
    rw [div_le_iff₀ (by exact_mod_cast hp20)]
    exact_mod_cast hle
  · rw [show (pipeline_crossovers (closeLin 60)).2
        = (find_crossovers (rolling_mean 20 (closeLin 60))
            (rolling_mean 50 (closeLin 60))).2 from rfl,
       List.eq_nil_iff_forall_not_mem]
    intro j hj
    rw [mem_find_crossovers_bearish] at hj
    obtain ⟨h1, hlt, hd⟩ := hj
    rw [length_rolling_mean, hlen] at hlt
    have hs1 : 0 ≤ signOf ((rolling_mean 20 (closeLin 60)).getD j 0
        - (rolling_mean 50 (closeLin 60)).getD j 0) :=
      signOf_nonneg (sub_nonneg.mpr (key j hlt))
    have hs2 := signOf_le_one ((rolling_mean 20 (closeLin 60)).getD (j - 1) 0
        - (rolling_mean 50 (closeLin 60)).getD (j - 1) 0)
    omega
